import Mathlib

/-!
Shallow embedding of `src/habrok/demo.py` (a PyTorch MNIST training demo)
and proofs about it.

The script is a linear sequence: parse one CLI argument, select a device,
load the MNIST splits, build two dataloaders, build an MLP, train for five
epochs alternating a training pass and an evaluation pass while averaging
loss/accuracy per pass, print per-epoch metrics, and save the weights.

Framework-level numerics (forward pass, cross-entropy, Adam) are abstracted
as step functions in a `Config`; everything the script itself does (control
flow, accumulator handling, printing, saving) is embedded faithfully.
Real-number quantities are modelled as `ℚ`.
-/

/-! ### CLI surface (demo.py lines 13-16, 19-20) -/

/-- One argparse argument declaration: flag name, the argparse `type=`,
whether it is required (argparse `--` flags are optional), its default
value and its help text.  From `parser.add_argument` on line 15. -/
structure ArgumentSpec where
  flag : String
  argType : String
  required : Bool
  defaultValue : String
  helpText : String
deriving DecidableEq

/-- The full set of arguments registered on the parser (line 15: a single
`--arg`, `type=str`, default `'defaul_arg'`). -/
def demo_arguments : List ArgumentSpec :=
  [⟨"--arg", "str", false, "defaul_arg", "Example command line argument"⟩]

/-- `parse_args` (lines 13-16): the value of `--arg` is the one provided on
the command line, else the registered default `'defaul_arg'`. -/
def parse_args (provided : Option String) : String :=
  match provided with
  | some v => v
  | none => "defaul_arg"

/-! ### Device selection (demo.py line 24) -/

/-- Line 24: `device = 'cuda' if torch.cuda.is_available() else 'cpu'`. -/
def select_device (cuda_available : Bool) : String :=
  if cuda_available then "cuda" else "cpu"

/-! ### Dataloaders (demo.py lines 31-32) -/

/-- The arguments the script passes to `torch.utils.data.DataLoader`. -/
structure DataLoaderArgs where
  batch_size : Nat
  shuffle : Bool
deriving DecidableEq

/-- PyTorch's `DataLoader` constructor defaults `shuffle` to `False` when
the caller does not pass it. -/
def dataloader_shuffle_default : Bool := false

def mkDataLoader (batch_size : Nat) (shuffle : Bool) : DataLoaderArgs :=
  ⟨batch_size, shuffle⟩

/-- Line 31: `DataLoader(train_dataset, batch_size=64, shuffle=True)`. -/
def train_dataloader : DataLoaderArgs := mkDataLoader 64 true

/-- Line 32: `DataLoader(test_dataset, batch_size=64)` — `shuffle` is not
passed, so the framework default applies. -/
def validation_dataloader : DataLoaderArgs := mkDataLoader 64 dataloader_shuffle_default

/-! ### Model topology (demo.py lines 34-46) -/

/-- The `nn` layers the script instantiates. -/
inductive Layer where
  | flatten
  | linear (inFeatures outFeatures : Nat)
  | relu
  | batchNorm1d (numFeatures : Nat)
deriving DecidableEq

/-- Lines 34-46: the `nn.Sequential` layer list, in source order. -/
def mlp_layers : List Layer :=
  [Layer.flatten,
   Layer.linear (28 * 28) 16,
   Layer.relu,
   Layer.batchNorm1d 16,
   Layer.linear 16 16,
   Layer.relu,
   Layer.batchNorm1d 16,
   Layer.linear 16 16,
   Layer.relu,
   Layer.batchNorm1d 16,
   Layer.linear 16 10]

/-- Abstract layer kinds, as the specification phrases the topology
(`activation`, `normalization`). -/
inductive LayerKind where
  | flatten
  | linear (inFeatures outFeatures : Nat)
  | activation
  | normalization
deriving DecidableEq

def Layer.kind : Layer → LayerKind
  | Layer.flatten => LayerKind.flatten
  | Layer.linear i o => LayerKind.linear i o
  | Layer.relu => LayerKind.activation
  | Layer.batchNorm1d _ => LayerKind.normalization

/-! ### Output events

Each `print` in the script becomes a structured line event carrying exactly
the values interpolated into the f-string, plus the `flush` keyword it was
called with; `torch.save` becomes a save event carrying its path. -/

/-- The contents of the four distinct print statements (lines 20, 25, 29,
84-91). -/
inductive LineContent where
  | passedArguments (value : String)
  | usingDevice (device : String)
  | datasetsLoaded
  | epochMetrics (epoch : Nat) (train_loss train_acc val_loss val_acc : ℚ)
deriving DecidableEq

inductive OutEvent where
  | line (content : LineContent) (flush : Bool)
  | save (path : String)
deriving DecidableEq

/-! ### The training loop (demo.py lines 48-93) -/

/-- Everything the environment and the ML framework supply to the script:
whether CUDA is available, the command-line value of `--arg`, the batch
sequences the two dataloaders yield (the training loader reshuffles, so its
batch list is indexed by epoch), the initial model parameters, and the two
per-batch framework computations:

* `trainStep p b` models lines 59-64 at parameters `p` on batch `b`
  (forward pass, cross-entropy `loss.item()`, accuracy `acc.item()`,
  and the parameter update `zero_grad`/`backward`/`optimizer.step`),
  returning the updated parameters with that batch's loss and accuracy;
* `evalStep p b` models lines 75-78 (forward pass under
  `torch.inference_mode`, loss and accuracy), which reads the parameters
  but returns no update — the evaluation loop body assigns no parameter. -/
structure Config (P B : Type) where
  cuda_available : Bool
  cmdline_arg : Option String
  train_batches : Nat → List B
  val_batches : List B
  init_params : P
  trainStep : P → B → P × ℚ × ℚ
  evalStep : P → B → ℚ × ℚ

/-- The Python local variables live across loop iterations: the model
parameters plus the four metric accumulators `train_loss`, `train_acc`,
`val_loss`, `val_acc`. -/
structure VarState (P : Type) where
  params : P
  train_loss : ℚ
  train_acc : ℚ
  val_loss : ℚ
  val_acc : ℚ

variable {P B : Type}

/-- One iteration of the training loop body (lines 57-66): run the step,
update the parameters, add the batch loss and accuracy to the
accumulators. -/
def trainBatchUpdate (step : P → B → P × ℚ × ℚ) (s : VarState P) (b : B) : VarState P :=
  let u := step s.params b
  { s with params := u.1,
           train_loss := s.train_loss + u.2.1,
           train_acc := s.train_acc + u.2.2 }

/-- One iteration of the evaluation loop body (lines 73-80): compute loss
and accuracy at the current parameters and add them to the accumulators;
the parameters are not modified. -/
def evalBatchUpdate (estep : P → B → ℚ × ℚ) (s : VarState P) (b : B) : VarState P :=
  let u := estep s.params b
  { s with val_loss := s.val_loss + u.1,
           val_acc := s.val_acc + u.2 }

/-- One epoch (lines 52-91): reset the train accumulators to zero
(line 56), fold the training loop, divide by the number of train batches
(lines 67-68), reset the validation accumulators to zero (line 72), fold
the evaluation loop, divide by the number of validation batches
(lines 81-82), and print the metrics line with `flush=True`
(lines 84-91). -/
def epochBody (cfg : Config P B) (e : Nat) (s0 : VarState P) : VarState P × OutEvent :=
  let s1 := { s0 with train_loss := 0, train_acc := 0 }
  let s2 := (cfg.train_batches e).foldl (trainBatchUpdate cfg.trainStep) s1
  let n : ℚ := ((cfg.train_batches e).length : ℚ)
  let s3 := { s2 with train_loss := s2.train_loss / n, train_acc := s2.train_acc / n }
  let s4 := { s3 with val_loss := 0, val_acc := 0 }
  let s5 := cfg.val_batches.foldl (evalBatchUpdate cfg.evalStep) s4
  let m : ℚ := (cfg.val_batches.length : ℚ)
  let s6 := { s5 with val_loss := s5.val_loss / m, val_acc := s5.val_acc / m }
  (s6, OutEvent.line
        (LineContent.epochMetrics e s6.train_loss s6.train_acc s6.val_loss s6.val_acc)
        true)

/-- `for epoch in ...:` over the given epoch indices, collecting the
printed lines in order. -/
def runEpochsFrom (cfg : Config P B) : List Nat → VarState P → VarState P × List OutEvent
  | [], s => (s, [])
  | e :: es, s =>
    let r := epochBody cfg e s
    let rest := runEpochsFrom cfg es r.1
    (rest.1, r.2 :: rest.2)

/-- `main` (lines 18-93, renamed since `main` is reserved in Lean): argument print (line 20, no flush), device print
(line 25, flushed), dataset print (line 29, flushed), the five-epoch loop
(`range(5)`, line 52), and the final `torch.save(..., 'models/mlp_demo.pt')`
(line 93).  Returns the ordered event trace and the final model
parameters. -/
def demo_main (cfg : Config P B) : List OutEvent × P :=
  let r := runEpochsFrom cfg (List.range 5) ⟨cfg.init_params, 0, 0, 0, 0⟩
  (OutEvent.line (LineContent.passedArguments (parse_args cfg.cmdline_arg)) false
    :: OutEvent.line (LineContent.usingDevice (select_device cfg.cuda_available)) true
    :: OutEvent.line LineContent.datasetsLoaded true
    :: (r.2 ++ [OutEvent.save "models/mlp_demo.pt"]),
   r.1.params)

/-! ### Derived descriptions of the two passes

These re-express the loop folds as "final parameters" plus "list of
per-batch metrics"; bridging lemmas below prove they coincide with the
folds in `epochBody`. -/

/-- The parameters produced by running the training updates of lines 59-64
over a batch list. -/
def finalP (step : P → B → P × ℚ × ℚ) : List B → P → P
  | [], p => p
  | b :: bs, p => finalP step bs (step p b).1

/-- The per-batch training losses of one pass, at the evolving
parameters. -/
def lossList (step : P → B → P × ℚ × ℚ) : List B → P → List ℚ
  | [], _ => []
  | b :: bs, p => (step p b).2.1 :: lossList step bs (step p b).1

/-- The per-batch training accuracies of one pass, at the evolving
parameters. -/
def accList (step : P → B → P × ℚ × ℚ) : List B → P → List ℚ
  | [], _ => []
  | b :: bs, p => (step p b).2.2 :: accList step bs (step p b).1

/-- The training pass of one epoch (lines 55-68): final parameters, and
loss/accuracy summed over the batches and divided by the number of
batches. -/
def trainPass (step : P → B → P × ℚ × ℚ) (bs : List B) (p : P) : P × ℚ × ℚ :=
  (finalP step bs p,
   (lossList step bs p).sum / (bs.length : ℚ),
   (accList step bs p).sum / (bs.length : ℚ))

/-- The evaluation pass of one epoch (lines 70-82): loss/accuracy at the
fixed parameters `p`, summed over the batches and divided by the number of
batches.  No parameters are returned: the pass does not change them. -/
def evalPass (estep : P → B → ℚ × ℚ) (bs : List B) (p : P) : ℚ × ℚ :=
  ((bs.map fun b => (estep p b).1).sum / (bs.length : ℚ),
   (bs.map fun b => (estep p b).2).sum / (bs.length : ℚ))

/-- The variable state at the end of an epoch whose entry parameters are
`p`: trained parameters and the four averaged metrics. -/
def epochResult (cfg : Config P B) (e : Nat) (p : P) : VarState P :=
  let t := trainPass cfg.trainStep (cfg.train_batches e) p
  let v := evalPass cfg.evalStep cfg.val_batches t.1
  ⟨t.1, t.2.1, t.2.2, v.1, v.2⟩

/-- The metrics line printed by the epoch whose entry parameters are
`p`. -/
def epochLineAt (cfg : Config P B) (e : Nat) (p : P) : OutEvent :=
  let t := trainPass cfg.trainStep (cfg.train_batches e) p
  let v := evalPass cfg.evalStep cfg.val_batches t.1
  OutEvent.line (LineContent.epochMetrics e t.2.1 t.2.2 v.1 v.2) true

/-- The model parameters entering epoch `e`: epoch 0 starts from the
initial parameters, and each epoch's training pass produces the next
epoch's entry parameters.  Only the training pass appears here: the
evaluation pass contributes nothing to the parameters. -/
def paramsBefore (cfg : Config P B) : Nat → P
  | 0 => cfg.init_params
  | e + 1 => finalP cfg.trainStep (cfg.train_batches e) (paramsBefore cfg e)

/-- Extract the payload of an epoch-metrics line. -/
def epochData : OutEvent → Option (Nat × ℚ × ℚ × ℚ × ℚ)
  | OutEvent.line (LineContent.epochMetrics e tl ta vl va) _ => some (e, tl, ta, vl, va)
  | _ => none

/-- Recognise the `torch.save` event. -/
def isSave : OutEvent → Bool
  | OutEvent.save _ => true
  | _ => false

/-- Line 61 / line 78: `(y_pred.argmax(-1) == y).float().mean()` — the
fraction of positions where the predicted class equals the label, over the
batch size. -/
def batchAccuracy (pred actual : List Nat) : ℚ :=
  (((pred.zip actual).countP fun q => q.1 == q.2 : Nat) : ℚ) / ((actual.length : Nat) : ℚ)

/-! ### Output formatting (demo.py lines 20, 25, 29, 84-91) -/

/-- Round to the nearest integer, ties to even — the rounding `:.3f`
formatting applies. -/
def roundHalfEven (q : ℚ) : ℤ :=
  let f := q.floor
  let frac := q - (f : ℚ)
  if frac < 1 / 2 then f
  else if 1 / 2 < frac then f + 1
  else if f % 2 = 0 then f else f + 1

/-- Render `n % 1000` as exactly three decimal digits. -/
def threeDigits (n : Nat) : String :=
  String.mk [Nat.digitChar (n / 100 % 10), Nat.digitChar (n / 10 % 10), Nat.digitChar (n % 10)]

/-- `:.3f`: fixed-point rendering with exactly three digits after the
decimal point. -/
def format3f (q : ℚ) : String :=
  let s := roundHalfEven (q * 1000)
  let sign := if s < 0 then "-" else ""
  let n := s.natAbs
  sign ++ Nat.repr (n / 1000) ++ "." ++ threeDigits (n % 1000)

/-- The text of each printed line, as the f-strings build it (whitespace of
the source's line continuations normalised to single spaces). -/
def renderLine : LineContent → String
  | LineContent.passedArguments v => "Passed arguments: arg = " ++ v
  | LineContent.usingDevice d => "Using " ++ d
  | LineContent.datasetsLoaded => "Datasets loaded"
  | LineContent.epochMetrics e tl ta vl va =>
      "Epoch: " ++ Nat.repr e ++
      " | Train Loss: " ++ format3f tl ++
      " | Train accuracy: " ++ format3f ta ++
      " | Validation loss: " ++ format3f vl ++
      " | Validation accuracy: " ++ format3f va

/-- How many characters follow the last decimal point of a rendered
number. -/
def fracDigits (s : String) : Nat :=
  (s.data.reverse.takeWhile fun c => c != '.').length

/-- Progress lines (device selection, dataset-load confirmation, epoch
metrics) must carry `flush=True`; the argument line and the save event are
not progress lines. -/
def flushOk : OutEvent → Bool
  | OutEvent.line (LineContent.usingDevice _) f => f
  | OutEvent.line LineContent.datasetsLoaded f => f
  | OutEvent.line (LineContent.epochMetrics _ _ _ _ _) f => f
  | _ => true

/-- A minimal concrete environment: no CUDA, no command-line value, one
single-element batch per pass, trivial parameters, and per-batch metrics
given by `batchAccuracy` on a one-sample batch whose prediction matches its
label. -/
def witnessConfig : Config Unit Unit :=
  ⟨false, none, fun _ => [()], [()], (),
   fun _ _ => ((), 0, batchAccuracy [0] [0]),
   fun _ _ => (0, batchAccuracy [0] [0])⟩

/-! ### Bridging lemmas: the loop folds compute the pass descriptions -/

lemma foldTrain_char (step : P → B → P × ℚ × ℚ) (bs : List B) (s : VarState P) :
    bs.foldl (trainBatchUpdate step) s =
      ⟨finalP step bs s.params,
       s.train_loss + (lossList step bs s.params).sum,
       s.train_acc + (accList step bs s.params).sum,
       s.val_loss, s.val_acc⟩ := by
  induction bs generalizing s with
  | nil => simp [finalP, lossList, accList]
  | cons b bs ih =>
    simp [List.foldl_cons, ih, trainBatchUpdate, finalP, lossList, accList, add_assoc]

lemma foldEval_char (estep : P → B → ℚ × ℚ) (bs : List B) (s : VarState P) :
    bs.foldl (evalBatchUpdate estep) s =
      ⟨s.params, s.train_loss, s.train_acc,
       s.val_loss + (bs.map fun b => (estep s.params b).1).sum,
       s.val_acc + (bs.map fun b => (estep s.params b).2).sum⟩ := by
  induction bs generalizing s with
  | nil => simp
  | cons b bs ih =>
    simp [List.foldl_cons, ih, evalBatchUpdate, add_assoc]

/-- One epoch is exactly: train pass, then eval pass at the trained
parameters, then the metrics line — and depends on the incoming state only
through its parameters. -/
lemma epochBody_char (cfg : Config P B) (e : Nat) (s : VarState P) :
    epochBody cfg e s = (epochResult cfg e s.params, epochLineAt cfg e s.params) := by
  simp [epochBody, foldTrain_char, foldEval_char, epochResult, epochLineAt,
        trainPass, evalPass]

lemma epochResult_params (cfg : Config P B) (e : Nat) (p : P) :
    (epochResult cfg e p).params = finalP cfg.trainStep (cfg.train_batches e) p := rfl

/-- The whole run, resolved: the ordered event trace and the final
parameters. -/
lemma demo_main_eq (cfg : Config P B) :
    demo_main cfg =
      (OutEvent.line (LineContent.passedArguments (parse_args cfg.cmdline_arg)) false
        :: OutEvent.line (LineContent.usingDevice (select_device cfg.cuda_available)) true
        :: OutEvent.line LineContent.datasetsLoaded true
        :: epochLineAt cfg 0 (paramsBefore cfg 0)
        :: epochLineAt cfg 1 (paramsBefore cfg 1)
        :: epochLineAt cfg 2 (paramsBefore cfg 2)
        :: epochLineAt cfg 3 (paramsBefore cfg 3)
        :: epochLineAt cfg 4 (paramsBefore cfg 4)
        :: [OutEvent.save "models/mlp_demo.pt"],
       paramsBefore cfg 5) := by
  have h5 : List.range 5 = [0, 1, 2, 3, 4] := rfl
  simp [demo_main, h5, runEpochsFrom, epochBody_char, epochResult_params, paramsBefore]

/-! ### Accuracy bounds -/

lemma batchAccuracy_unit (pr ac : List Nat) :
    0 ≤ batchAccuracy pr ac ∧ batchAccuracy pr ac ≤ 1 := by
  constructor
  · exact div_nonneg (by positivity) (by positivity)
  · rcases Nat.eq_zero_or_pos ac.length with h0 | hpos
    · simp [batchAccuracy, h0]
    · have hc : ((pr.zip ac).countP fun q => q.1 == q.2) ≤ ac.length := by
        calc ((pr.zip ac).countP fun q => q.1 == q.2) ≤ (pr.zip ac).length :=
              List.countP_le_length _
          _ ≤ ac.length := by rw [List.length_zip]; exact min_le_right _ _
      unfold batchAccuracy
      rw [div_le_one (by exact_mod_cast hpos)]
      exact_mod_cast hc

lemma sum_div_length_unit (l : List ℚ) (h : ∀ x ∈ l, 0 ≤ x ∧ x ≤ 1) :
    0 ≤ l.sum / (l.length : ℚ) ∧ l.sum / (l.length : ℚ) ≤ 1 := by
  rcases l with _ | ⟨a, t⟩
  · simp
  · have hlen : (0 : ℚ) < (((a :: t).length : Nat) : ℚ) := by
      exact_mod_cast Nat.succ_pos t.length
    constructor
    · exact div_nonneg (List.sum_nonneg fun x hx => (h x hx).1) (le_of_lt hlen)
    · rw [div_le_one hlen]
      calc (a :: t).sum ≤ (a :: t).length • (1 : ℚ) :=
            List.sum_le_card_nsmul _ 1 fun x hx => (h x hx).2
        _ = (((a :: t).length : Nat) : ℚ) := by simp

lemma accList_length (step : P → B → P × ℚ × ℚ) (bs : List B) (p : P) :
    (accList step bs p).length = bs.length := by
  induction bs generalizing p with
  | nil => rfl
  | cons b bs ih => simp [accList, ih]

lemma accList_mem (step : P → B → P × ℚ × ℚ) (bs : List B) (p : P) (x : ℚ)
    (hx : x ∈ accList step bs p) : ∃ p' b, x = (step p' b).2.2 := by
  induction bs generalizing p with
  | nil => simp [accList] at hx
  | cons b bs ih =>
    rcases (by simpa [accList] using hx : x = (step p b).2.2 ∨ x ∈ accList step bs (step p b).1)
      with h | h
    · exact ⟨p, b, h⟩
    · exact ih _ h

/-- The averaged training accuracy is in `[0, 1]` whenever every per-batch
accuracy is the indicator mean of line 61. -/
lemma trainPass_acc_unit (step : P → B → P × ℚ × ℚ)
    (hT : ∀ p b, ∃ pr ac, (step p b).2.2 = batchAccuracy pr ac) (bs : List B) (p : P) :
    0 ≤ (trainPass step bs p).2.2 ∧ (trainPass step bs p).2.2 ≤ 1 := by
  have hchar : (trainPass step bs p).2.2 =
      (accList step bs p).sum / ((accList step bs p).length : ℚ) := by
    simp [trainPass, accList_length]
  rw [hchar]
  refine sum_div_length_unit _ fun x hx => ?_
  obtain ⟨p', b, rfl⟩ := accList_mem step bs p x hx
  obtain ⟨pr, ac, hpa⟩ := hT p' b
  rw [hpa]
  exact batchAccuracy_unit pr ac

/-- The averaged validation accuracy is in `[0, 1]` whenever every
per-batch accuracy is the indicator mean of line 78. -/
lemma evalPass_acc_unit (estep : P → B → ℚ × ℚ)
    (hV : ∀ p b, ∃ pr ac, (estep p b).2 = batchAccuracy pr ac) (bs : List B) (p : P) :
    0 ≤ (evalPass estep bs p).2 ∧ (evalPass estep bs p).2 ≤ 1 := by
  have hchar : (evalPass estep bs p).2 =
      (bs.map fun b => (estep p b).2).sum / (((bs.map fun b => (estep p b).2).length : Nat) : ℚ) := by
    simp [evalPass]
  rw [hchar]
  refine sum_div_length_unit _ fun x hx => ?_
  obtain ⟨b, _, rfl⟩ := List.mem_map.mp hx
  obtain ⟨pr, ac, hpa⟩ := hV p b
  rw [hpa]
  exact batchAccuracy_unit pr ac

/-! ### Formatting facts -/

lemma digitChar_mod_ne_dot (x : Nat) : (Nat.digitChar (x % 10) != '.') = true := by
  have h : x % 10 < 10 := Nat.mod_lt _ (by norm_num)
  have hall : ∀ y < 10, (Nat.digitChar y != '.') = true := by decide
  exact hall _ h

lemma string_data_append (a b : String) : (a ++ b).data = a.data ++ b.data := rfl

/-- A `:.3f`-formatted number always shows exactly three digits after the
decimal point. -/
lemma format3f_fracDigits (q : ℚ) : fracDigits (format3f q) = 3 := by
  unfold format3f fracDigits threeDigits
  simp only [string_data_append]
  simp [List.takeWhile, digitChar_mod_ne_dot, String.data]

/-- The epoch-metrics lines of the run, in order: one per epoch `0..4`,
each reporting the averages of that epoch's training pass followed by the
evaluation pass at the trained parameters. -/
lemma demo_main_epochData (cfg : Config P B) :
    (demo_main cfg).1.filterMap epochData =
      (List.range 5).map fun e =>
        let t := trainPass cfg.trainStep (cfg.train_batches e) (paramsBefore cfg e)
        let v := evalPass cfg.evalStep cfg.val_batches t.1
        (e, t.2.1, t.2.2, v.1, v.2) := by
  have h5 : List.range 5 = [0, 1, 2, 3, 4] := rfl
  rw [demo_main_eq, h5]
  simp [epochData, epochLineAt]

/-! ### Claim theorems -/

/-- C1 (counterexample): the registered default of `--arg` is not the
string `"default_arg"` — line 15 spells it `'defaul_arg'`. -/
theorem claim_C1_counterexample : ¬ (parse_args none = "default_arg") := by decide

/-- C1 (amended): the CLI exposes exactly one optional flag `--arg` of
string type whose default value is the string `"defaul_arg"`, and the value
of this argument is printed at startup before any other output. -/
theorem claim_C1_cli :
    demo_arguments = [⟨"--arg", "str", false, "defaul_arg", "Example command line argument"⟩] ∧
    parse_args none = "defaul_arg" ∧
    ∀ (P B : Type) (cfg : Config P B),
      (demo_main cfg).1.head? =
        some (OutEvent.line (LineContent.passedArguments (parse_args cfg.cmdline_arg)) false) :=
  ⟨rfl, rfl, fun _ _ _ => rfl⟩

/-- C2 (counterexample): it is not the case that both dataloaders shuffle —
line 32 builds the validation dataloader without `shuffle`, so the
framework default `False` applies. -/
theorem claim_C2_counterexample :
    ¬ (train_dataloader.shuffle = true ∧ validation_dataloader.shuffle = true) := by decide

/-- C2 (amended): both splits are wrapped in batching iterators of batch
size 64, but only the training dataloader shuffles; the validation
dataloader does not. -/
theorem claim_C2_dataloaders :
    train_dataloader = mkDataLoader 64 true ∧
    validation_dataloader = mkDataLoader 64 false ∧
    train_dataloader.shuffle = true ∧
    validation_dataloader.shuffle = false := by decide

/-- C3: the run prints exactly five epoch-metrics lines, for epochs
`0..4` in order; each reports first the training pass over that epoch's
training batches (starting from the parameters the previous epochs
trained), then the evaluation pass over the validation batches at the
just-trained parameters, with loss and accuracy averaged over the batches
of the corresponding pass. -/
theorem claim_C3_epoch_loop (cfg : Config P B) :
    (demo_main cfg).1.filterMap epochData =
      (List.range 5).map fun e =>
        let t := trainPass cfg.trainStep (cfg.train_batches e) (paramsBefore cfg e)
        let v := evalPass cfg.evalStep cfg.val_batches t.1
        (e, t.2.1, t.2.2, v.1, v.2) :=
  demo_main_epochData cfg

/-- C4: mapping each instantiated layer to its kind (ReLU is the
activation, BatchNorm1d the normalization) yields exactly the topology
flatten, linear(784,16), activation, normalization, linear(16,16),
activation, normalization, linear(16,16), activation, normalization,
linear(16,10), in that order. -/
theorem claim_C4_topology :
    mlp_layers.map Layer.kind =
      [LayerKind.flatten, LayerKind.linear 784 16,
       LayerKind.activation, LayerKind.normalization,
       LayerKind.linear 16 16, LayerKind.activation, LayerKind.normalization,
       LayerKind.linear 16 16, LayerKind.activation, LayerKind.normalization,
       LayerKind.linear 16 10] := by decide

/-- C5: the evaluation pass is parameter-preserving — the parameters a
whole epoch produces are exactly those produced by its training pass alone
(`finalP` applies only the training updates), and consequently the final
parameters of the run are the five-fold iterate of the training pass with
no other update in between. -/
theorem claim_C5_eval_frame (cfg : Config P B) :
    (demo_main cfg).2 = paramsBefore cfg 5 ∧
    ∀ (e : Nat) (s : VarState P),
      ((epochBody cfg e s).1).params = finalP cfg.trainStep (cfg.train_batches e) s.params := by
  constructor
  · rw [demo_main_eq]
  · intro e s
    rw [epochBody_char]
    exact epochResult_params cfg e s.params

/-- C6: the trace contains exactly one save event, its path is
`models/mlp_demo.pt`, and it is the very last event of the run — in
particular it comes after all five epoch lines. -/
theorem claim_C6_save (cfg : Config P B) :
    (demo_main cfg).1.filter isSave = [OutEvent.save "models/mlp_demo.pt"] ∧
    (demo_main cfg).1.getLast? = some (OutEvent.save "models/mlp_demo.pt") :=
  ⟨rfl, rfl⟩

/-- C7: the selected device is `"cuda"` exactly when the accelerator is
available and `"cpu"` exactly when it is not, and the second output line of
the run reports that selection (flushed). -/
theorem claim_C7_device (cfg : Config P B) :
    (demo_main cfg).1[1]? =
      some (OutEvent.line (LineContent.usingDevice (select_device cfg.cuda_available)) true) ∧
    ∀ b : Bool, (select_device b = "cuda" ↔ b = true) ∧ (select_device b = "cpu" ↔ b = false) := by
  refine ⟨rfl, ?_⟩
  intro b
  cases b
  · exact ⟨by decide, by decide⟩
  · exact ⟨by decide, by decide⟩

/-- C8: every progress line (device selection, dataset-load confirmation,
epoch metrics) in the trace carries `flush=True`; each epoch line renders
the epoch index together with train loss, train accuracy, validation loss
and validation accuracy; and the `:.3f` rendering always shows exactly
three digits after the decimal point. -/
theorem claim_C8_unbuffered_format (cfg : Config P B) :
    ((demo_main cfg).1.all flushOk) = true ∧
    (∀ (e : Nat) (tl ta vl va : ℚ),
      renderLine (LineContent.epochMetrics e tl ta vl va) =
        "Epoch: " ++ Nat.repr e ++
        " | Train Loss: " ++ format3f tl ++
        " | Train accuracy: " ++ format3f ta ++
        " | Validation loss: " ++ format3f vl ++
        " | Validation accuracy: " ++ format3f va) ∧
    ∀ q : ℚ, fracDigits (format3f q) = 3 :=
  ⟨rfl, fun _ _ _ _ _ => rfl, format3f_fracDigits⟩

/-- C9: if every per-batch accuracy the framework steps report is the mean
of a 0/1 indicator over the batch (line 61 / line 78), then every reported
per-epoch accuracy — the sum of per-batch accuracies divided by the number
of batches — lies in `[0, 1]`, for the train and the validation pass
alike. -/
theorem claim_C9_accuracy_unit (cfg : Config P B)
    (hT : ∀ p b, ∃ pr ac, (cfg.trainStep p b).2.2 = batchAccuracy pr ac)
    (hV : ∀ p b, ∃ pr ac, (cfg.evalStep p b).2 = batchAccuracy pr ac)
    (e : Nat) (tl ta vl va : ℚ)
    (hmem : (e, tl, ta, vl, va) ∈ (demo_main cfg).1.filterMap epochData) :
    (0 ≤ ta ∧ ta ≤ 1) ∧ (0 ≤ va ∧ va ≤ 1) := by
  rw [demo_main_epochData] at hmem
  simp only [List.mem_map, List.mem_range] at hmem
  obtain ⟨e', _, heq⟩ := hmem
  simp only [Prod.mk.injEq] at heq
  obtain ⟨-, -, hta, -, hva⟩ := heq
  rw [← hta, ← hva]
  exact ⟨trainPass_acc_unit cfg.trainStep hT _ _, evalPass_acc_unit cfg.evalStep hV _ _⟩

/-- C9 witness: in the concrete environment `witnessConfig`, epoch 0
reports train/validation accuracy 1, and the theorem places both in
`[0, 1]`. -/
theorem claim_C9_witness :
    ((0 : ℚ) ≤ 1 ∧ (1 : ℚ) ≤ 1) ∧ ((0 : ℚ) ≤ 1 ∧ (1 : ℚ) ≤ 1) :=
  @claim_C9_accuracy_unit Unit Unit witnessConfig
    (fun _ _ => ⟨[0], [0], rfl⟩) (fun _ _ => ⟨[0], [0], rfl⟩)
    0 0 1 0 1 (by
      rw [demo_main_epochData]
      refine List.mem_map.mpr ⟨0, by decide, ?_⟩
      norm_num [witnessConfig, trainPass, evalPass, paramsBefore, finalP,
                lossList, accList, batchAccuracy])

/-- C10: an epoch's outcome — its resulting variable state and its printed
metrics line — is the same for any values the four metric accumulators
carry into the epoch, because lines 56 and 72 reset them before use; only
the incoming parameters matter. -/
theorem claim_C10_accumulator_reset (cfg : Config P B) (e : Nat) (p : P)
    (a b c d a' b' c' d' : ℚ) :
    epochBody cfg e ⟨p, a, b, c, d⟩ = epochBody cfg e ⟨p, a', b', c', d'⟩ := by
  rw [epochBody_char, epochBody_char]
